import Mathlib

/-!
# Verification of the OpenSSL dynamic-binding layer (src/linux_tcp/openssl.cpp)

This development shallowly embeds the dispatch layer of `openssl.cpp`:
a process-wide handle (initially `RTLD_DEFAULT`), set by `AMQP::openssl(ptr)`,
and one wrapper per OpenSSL operation.  Each wrapper either calls the
statically linked symbol (when the handle is the sentinel) or resolves the
symbol from the configured handle through a function-local
`static Function<...>` object, which memoizes the resolution per call site.

The `Function` template itself lives in `function.h`, which is not part of
the sources; it is modelled from the spec (§4.1): a lookup of a name in a
handle that yields a bound callable, invalid (falsy) on failure.

The embedding is parametric in a `World`: the dlsym tables of every handle,
the semantics of calling a resolved address, the addresses of the statically
linked symbols, and the in-process macro forms wrapped by local trampolines.
The process state carries the handle, one memoization cell per C++
`static Function` call site, a log of performed address lookups, and a log
of invocations made through resolver-produced bindings (by call site), so
that "the resolver is not involved" and "the fallback is never invoked"
are directly expressible.
-/

/-- A process handle: the `RTLD_DEFAULT` sentinel, or an explicitly
loaded library image (identified by an opaque reference). -/
inductive Handle where
  | rtldDefault : Handle
  | explicit (ref : Nat) : Handle
deriving DecidableEq, Repr

/-- The C++ `static Function<...>` call sites in openssl.cpp that the claims
are about, used to tag invocations that go through resolver bindings. -/
inductive Site where
  | validFunc      -- line 52, Function(handle, "SSL_CTX_new") inside valid()
  | tlsFunc        -- line 68, Function(handle, "TLS_client_method")
  | tlsOld         -- line 74, Function(handle, "SSLv23_client_method")
  | ctxNewFunc     -- line 91, Function(handle, "SSL_CTX_new")
  | readFunc       -- line 110, Function(handle, "SSL_read")
  | upRefFunc      -- line 229, Function(handle, "SSL_up_ref")
  | hostNameFunc   -- line 389, Function(handle, "SSL_set_tlsext_host_name")
  | setModeFunc    -- line 403, Function(handle, "SSL_CTX_set_mode")
deriving DecidableEq, Repr

/-- The external world: which symbols each library image exports (`dlsym`),
what calling a resolved address does, where the statically linked reference
symbols live, and the in-process macro forms that the local trampolines
`SSL_set_tlsext_host_name_impl` / `SSL_CTX_set_mode_impl` expand. Pointers
and integer arguments are both modelled as `Int`; addresses as `Nat`. -/
structure World where
  dlsym : Handle → String → Option Nat
  call : Nat → List Int → Int
  staticAddr : String → Nat
  hostNameInline : Int → Int → Int
  setModeInline : Int → Int → Int

/-- The mutable process state of openssl.cpp: the global `handle`
(line 20), one cell per function-local `static Function` object
(`none` = not yet constructed, `some r` = constructed with resolution
result `r`), and two observation logs (most recent first). -/
structure OpenSSLState where
  handle : Handle
  validFunc : Option (Option Nat)
  tlsFunc : Option (Option Nat)
  tlsOld : Option (Option Nat)
  ctxNewFunc : Option (Option Nat)
  readFunc : Option (Option Nat)
  upRefFunc : Option (Option Nat)
  hostNameFunc : Option (Option Nat)
  setModeFunc : Option (Option Nat)
  lookups : List (Handle × String)
  calls : List Site
deriving DecidableEq, Repr

/-- The state at process start: `static void *handle = RTLD_DEFAULT;`
(line 20) and no `static Function` object constructed yet. -/
def initialState : OpenSSLState :=
  { handle := Handle.rtldDefault
    validFunc := none, tlsFunc := none, tlsOld := none, ctxNewFunc := none
    readFunc := none, upRefFunc := none, hostNameFunc := none
    setModeFunc := none, lookups := [], calls := [] }

/-- Modelled from the spec: `function.h` (the `Function` template) is not in
the sources.  Per §4.1 the Symbol Resolver looks up the address of `name`
within the library identified by `handle`; on failure the callable is
invalid (falsy).  Combined with the C++ function-local `static` semantics
visible in openssl.cpp: the first execution of the call site constructs the
`Function` (performing the lookup, which we log); later executions reuse
the cached object.  Returns (resolution result, updated cell, updated log). -/
def resolveCell (w : World) (h : Handle) (name : String)
    (cell : Option (Option Nat)) (log : List (Handle × String)) :
    Option Nat × Option (Option Nat) × List (Handle × String) :=
  match cell with
  | some r => (r, some r, log)
  | none => (w.dlsym h name, some (w.dlsym h name), (h, name) :: log)

/-- Modelled from the spec: invoking a bound callable (§4.1).  A valid
binding calls the resolved address; calling an invalid binding is
undefined by contract, modelled as `none`. -/
def invoke (w : World) (r : Option Nat) (args : List Int) : Option Int :=
  match r with
  | some a => some (w.call a args)
  | none => none

namespace AMQP

/-- `void openssl(void *ptr)` (lines 31–35): store the handle. -/
def openssl (ptr : Handle) (st : OpenSSLState) : OpenSSLState :=
  { st with handle := ptr }

namespace OpenSSL

/-- `bool valid()` (lines 46–56): `true` on the sentinel path, otherwise
the validity of the binding for "SSL_CTX_new" resolved at line 52. -/
def valid (w : World) (st : OpenSSLState) : Bool × OpenSSLState :=
  if st.handle = Handle.rtldDefault then (true, st)
  else
    let (r, cell, log) := resolveCell w st.handle "SSL_CTX_new" st.validFunc st.lookups
    (r.isSome, { st with validFunc := cell, lookups := log })

/-- `const SSL_METHOD *TLS_client_method()` (lines 62–78): sentinel path
calls the static symbol; otherwise try "TLS_client_method" (line 68), and
when that binding is falsy fall back to "SSLv23_client_method" (line 74),
invoking the fallback unconditionally (`return old();`). -/
def TLS_client_method (w : World) (st : OpenSSLState) : Option Int × OpenSSLState :=
  if st.handle = Handle.rtldDefault then
    (some (w.call (w.staticAddr "TLS_client_method") []), st)
  else
    let (r, cell, log) := resolveCell w st.handle "TLS_client_method" st.tlsFunc st.lookups
    let st1 := { st with tlsFunc := cell, lookups := log }
    match r with
    | some a => (some (w.call a []), { st1 with calls := Site.tlsFunc :: st1.calls })
    | none =>
      let (r2, cell2, log2) := resolveCell w st1.handle "SSLv23_client_method" st1.tlsOld st1.lookups
      (invoke w r2 [],
       { st1 with tlsOld := cell2, lookups := log2, calls := Site.tlsOld :: st1.calls })

/-- `SSL_CTX *SSL_CTX_new(const SSL_METHOD *method)` (lines 85–95). -/
def SSL_CTX_new (w : World) (method : Int) (st : OpenSSLState) : Option Int × OpenSSLState :=
  if st.handle = Handle.rtldDefault then
    (some (w.call (w.staticAddr "SSL_CTX_new") [method]), st)
  else
    let (r, cell, log) := resolveCell w st.handle "SSL_CTX_new" st.ctxNewFunc st.lookups
    (invoke w r [method],
     { st with ctxNewFunc := cell, lookups := log, calls := Site.ctxNewFunc :: st.calls })

/-- `int SSL_read(SSL *ssl, void *buf, int num)` (lines 104–114). -/
def SSL_read (w : World) (ssl buf num : Int) (st : OpenSSLState) : Option Int × OpenSSLState :=
  if st.handle = Handle.rtldDefault then
    (some (w.call (w.staticAddr "SSL_read") [ssl, buf, num]), st)
  else
    let (r, cell, log) := resolveCell w st.handle "SSL_read" st.readFunc st.lookups
    (invoke w r [ssl, buf, num],
     { st with readFunc := cell, lookups := log, calls := Site.readFunc :: st.calls })

/-- `int SSL_up_ref(SSL *ssl)` (lines 226–237): note there is NO
`RTLD_DEFAULT` guard; the symbol is resolved against the current handle
unconditionally at line 229, and a falsy binding yields `return 0;`. -/
def SSL_up_ref (w : World) (ssl : Int) (st : OpenSSLState) : Option Int × OpenSSLState :=
  let (r, cell, log) := resolveCell w st.handle "SSL_up_ref" st.upRefFunc st.lookups
  let st1 := { st with upRefFunc := cell, lookups := log }
  match r with
  | some a => (some (w.call a [ssl]), { st1 with calls := Site.upRefFunc :: st1.calls })
  | none => (some 0, st1)

/-- `static int SSL_set_tlsext_host_name_impl(SSL*, const char*)`
(lines 379–382): the local trampoline expanding the OpenSSL macro form. -/
def SSL_set_tlsext_host_name_impl (w : World) (ssl name : Int) : Int :=
  w.hostNameInline ssl name

/-- `int SSL_set_tlsext_host_name_func(SSL*, const char*)` (lines 384–391):
sentinel path goes through the trampoline; explicit path resolves the real
exported symbol "SSL_set_tlsext_host_name" (line 389). -/
def SSL_set_tlsext_host_name_func (w : World) (ssl name : Int) (st : OpenSSLState) :
    Option Int × OpenSSLState :=
  if st.handle = Handle.rtldDefault then
    (some (SSL_set_tlsext_host_name_impl w ssl name), st)
  else
    let (r, cell, log) := resolveCell w st.handle "SSL_set_tlsext_host_name" st.hostNameFunc st.lookups
    (invoke w r [ssl, name],
     { st with hostNameFunc := cell, lookups := log, calls := Site.hostNameFunc :: st.calls })

/-- `static uint32_t SSL_CTX_set_mode_impl(SSL_CTX*, uint32_t)`
(lines 393–396): the local trampoline expanding the macro form. -/
def SSL_CTX_set_mode_impl (w : World) (ctx mode : Int) : Int :=
  w.setModeInline ctx mode

/-- `uint32_t SSL_CTX_set_mode_func(SSL_CTX*, uint32_t)` (lines 398–405):
sentinel path goes through the trampoline; explicit path resolves the real
exported symbol "SSL_CTX_set_mode" (line 403). -/
def SSL_CTX_set_mode_func (w : World) (ctx mode : Int) (st : OpenSSLState) :
    Option Int × OpenSSLState :=
  if st.handle = Handle.rtldDefault then
    (some (SSL_CTX_set_mode_impl w ctx mode), st)
  else
    let (r, cell, log) := resolveCell w st.handle "SSL_CTX_set_mode" st.setModeFunc st.lookups
    (invoke w r [ctx, mode],
     { st with setModeFunc := cell, lookups := log, calls := Site.setModeFunc :: st.calls })

end OpenSSL
end AMQP

/-- One externally observable operation on the layer: a call to one of the
modelled wrappers, or the configuration call `AMQP::openssl`. -/
inductive Op where
  | callValid
  | callTLSClientMethod
  | callSSLCTXNew (method : Int)
  | callSSLRead (ssl buf num : Int)
  | callSSLUpRef (ssl : Int)
  | callHostName (ssl name : Int)
  | callSetMode (ctx mode : Int)
  | setHandle (h : Handle)
deriving DecidableEq, Repr

/-- Execute one operation, keeping only the state (results are recovered
by calling the individual wrapper on the pre-state). -/
def runOp (w : World) (op : Op) (st : OpenSSLState) : OpenSSLState :=
  match op with
  | Op.callValid => (AMQP.OpenSSL.valid w st).2
  | Op.callTLSClientMethod => (AMQP.OpenSSL.TLS_client_method w st).2
  | Op.callSSLCTXNew m => (AMQP.OpenSSL.SSL_CTX_new w m st).2
  | Op.callSSLRead a b c => (AMQP.OpenSSL.SSL_read w a b c st).2
  | Op.callSSLUpRef s => (AMQP.OpenSSL.SSL_up_ref w s st).2
  | Op.callHostName s n => (AMQP.OpenSSL.SSL_set_tlsext_host_name_func w s n st).2
  | Op.callSetMode c m => (AMQP.OpenSSL.SSL_CTX_set_mode_func w c m st).2
  | Op.setHandle h => AMQP.openssl h st

/-- Execute a sequence of operations from left to right. -/
def runOps (w : World) (ops : List Op) (st : OpenSSLState) : OpenSSLState :=
  match ops with
  | [] => st
  | op :: rest => runOps w rest (runOp w op st)

/-- The resolution result that a `static Function` call site sees: the
cached binding when the cell was already constructed, otherwise the fresh
lookup against `h`. -/
def cellValue (w : World) (h : Handle) (name : String) (cell : Option (Option Nat)) : Option Nat :=
  match cell with
  | some r => r
  | none => w.dlsym h name

/-- How many address lookups for symbol `name` a log records. -/
def symLookups (name : String) (log : List (Handle × String)) : Nat :=
  (log.filter (fun p => p.2 = name)).length

/-- A concrete world used to instantiate the theorems: the in-process space
lacks "SSL_up_ref" but has everything else; library 1 is a modern image;
library 2 is an old image exporting only "SSLv23_client_method".  Calling
address `a` on `args` returns `a * 1000` plus the digits of the arguments,
so results identify which address was invoked and with which arguments. -/
def W0 : World where
  dlsym h name :=
    match h, name with
    | Handle.rtldDefault, "SSL_up_ref" => none
    | Handle.rtldDefault, _ => some 1
    | Handle.explicit 1, "TLS_client_method" => some 20
    | Handle.explicit 1, "SSL_CTX_new" => some 21
    | Handle.explicit 1, "SSL_read" => some 22
    | Handle.explicit 1, "SSL_up_ref" => some 23
    | Handle.explicit 1, "SSL_set_tlsext_host_name" => some 24
    | Handle.explicit 1, "SSL_CTX_set_mode" => some 25
    | Handle.explicit 2, "SSLv23_client_method" => some 30
    | _, _ => none
  call a args := (a : Int) * 1000 + args.foldl (fun acc x => acc * 10 + x) 0
  staticAddr _ := 7
  hostNameInline ssl name := ssl + name + 41
  setModeInline ctx mode := ctx * mode + 42

/-- C9: `valid()` returns `true` unconditionally when the handle is the
sentinel, with the state untouched (no resolution is attempted); with an
explicit handle it reports whether the single probe symbol "SSL_CTX_new"
resolves against that handle, performing the lookup on first use. -/
theorem valid_sentinel_true_explicit_probes (w : World) (st : OpenSSLState) :
    (st.handle = Handle.rtldDefault → AMQP.OpenSSL.valid w st = (true, st)) ∧
    (∀ r, st.handle = Handle.explicit r →
      (AMQP.OpenSSL.valid w st).1 = (cellValue w st.handle "SSL_CTX_new" st.validFunc).isSome ∧
      (st.validFunc = none →
        (AMQP.OpenSSL.valid w st).2.lookups = (st.handle, "SSL_CTX_new") :: st.lookups)) := by
  constructor
  · intro hd
    simp [AMQP.OpenSSL.valid, hd]
  · intro r hd
    cases hcell : st.validFunc with
    | none =>
      simp [AMQP.OpenSSL.valid, hd, resolveCell, cellValue, hcell]
    | some rv =>
      simp [AMQP.OpenSSL.valid, hd, resolveCell, cellValue, hcell]

/-- C9 witness: at the in-process sentinel `valid` is `true` without state
change; at explicit handle 2 (which lacks "SSL_CTX_new") it reports the
probe's validity after one probe lookup. -/
theorem valid_sentinel_true_explicit_probes_witness :
    initialState.handle = Handle.rtldDefault ∧
    AMQP.OpenSSL.valid W0 initialState = (true, initialState) ∧
    (AMQP.openssl (Handle.explicit 2) initialState).handle = Handle.explicit 2 ∧
    (AMQP.OpenSSL.valid W0 (AMQP.openssl (Handle.explicit 2) initialState)).1 =
      (cellValue W0 (AMQP.openssl (Handle.explicit 2) initialState).handle "SSL_CTX_new"
        (AMQP.openssl (Handle.explicit 2) initialState).validFunc).isSome ∧
    (AMQP.OpenSSL.valid W0 (AMQP.openssl (Handle.explicit 2) initialState)).2.lookups =
      ((AMQP.openssl (Handle.explicit 2) initialState).handle, "SSL_CTX_new") ::
        (AMQP.openssl (Handle.explicit 2) initialState).lookups :=
  ⟨rfl,
   (valid_sentinel_true_explicit_probes W0 initialState).1 rfl,
   rfl,
   ((valid_sentinel_true_explicit_probes W0
      (AMQP.openssl (Handle.explicit 2) initialState)).2 2 rfl).1,
   ((valid_sentinel_true_explicit_probes W0
      (AMQP.openssl (Handle.explicit 2) initialState)).2 2 rfl).2 rfl⟩

/-- C4: `SSL_up_ref` returns the fixed sentinel `0` when the binding for
"SSL_up_ref" against the current handle is invalid — without invoking the
invalid callable (no resolver-bound invocation is logged) — and returns the
resolved function's result when resolution succeeds. -/
theorem upRef_sentinel_zero_on_failure (w : World) (st : OpenSSLState) (ssl : Int) :
    (cellValue w st.handle "SSL_up_ref" st.upRefFunc = none →
      (AMQP.OpenSSL.SSL_up_ref w ssl st).1 = some 0 ∧
      (AMQP.OpenSSL.SSL_up_ref w ssl st).2.calls = st.calls) ∧
    (∀ a, cellValue w st.handle "SSL_up_ref" st.upRefFunc = some a →
      (AMQP.OpenSSL.SSL_up_ref w ssl st).1 = some (w.call a [ssl])) := by
  cases hcell : st.upRefFunc with
  | none =>
    constructor
    · intro hr
      simp [cellValue, hcell] at hr
      simp [AMQP.OpenSSL.SSL_up_ref, resolveCell, hcell, hr]
    · intro a hr
      simp [cellValue, hcell] at hr
      simp [AMQP.OpenSSL.SSL_up_ref, resolveCell, hcell, hr]
  | some rv =>
    constructor
    · intro hr
      simp [cellValue, hcell] at hr
      simp [AMQP.OpenSSL.SSL_up_ref, resolveCell, hcell, hr]
    · intro a hr
      simp [cellValue, hcell] at hr
      simp [AMQP.OpenSSL.SSL_up_ref, resolveCell, hcell, hr]

/-- C4 witness: in `W0` the in-process space lacks "SSL_up_ref", so from the
initial state the wrapper returns `0` (and logs no invocation); after
configuring library 1 (which exports it at address 23) it returns that
function's result. -/
theorem upRef_sentinel_zero_on_failure_witness :
    (cellValue W0 initialState.handle "SSL_up_ref" initialState.upRefFunc = none ∧
      (AMQP.OpenSSL.SSL_up_ref W0 5 initialState).1 = some 0 ∧
      (AMQP.OpenSSL.SSL_up_ref W0 5 initialState).2.calls = initialState.calls) ∧
    (cellValue W0 (AMQP.openssl (Handle.explicit 1) initialState).handle "SSL_up_ref"
        (AMQP.openssl (Handle.explicit 1) initialState).upRefFunc = some 23 ∧
      (AMQP.OpenSSL.SSL_up_ref W0 5 (AMQP.openssl (Handle.explicit 1) initialState)).1 =
        some (W0.call 23 [5])) :=
  ⟨⟨by decide,
    (upRef_sentinel_zero_on_failure W0 initialState 5).1 (by decide)⟩,
   ⟨by decide,
    (upRef_sentinel_zero_on_failure W0 (AMQP.openssl (Handle.explicit 1) initialState) 5).2 23 (by decide)⟩⟩

/-- C1 counterexample: `SSL_up_ref` (lines 226–237) has no sentinel guard.
With the handle still at the `RTLD_DEFAULT` sentinel, invoking it performs
an address lookup (the resolver IS involved), and in a world whose
in-process space lacks "SSL_up_ref" it returns `0` while the direct
statically linked call would return the reference function's result. -/
theorem upRef_consults_resolver_at_sentinel :
    initialState.handle = Handle.rtldDefault ∧
    (AMQP.OpenSSL.SSL_up_ref W0 5 initialState).2.lookups =
      [(Handle.rtldDefault, "SSL_up_ref")] ∧
    (AMQP.OpenSSL.SSL_up_ref W0 5 initialState).1 = some 0 ∧
    (AMQP.OpenSSL.SSL_up_ref W0 5 initialState).1 ≠
      some (W0.call (W0.staticAddr "SSL_up_ref") [5]) := by
  refine ⟨rfl, by decide, by decide, by decide⟩

/-- C1 (amended): every modelled wrapped operation that guards on the
sentinel — all of them except `SSL_up_ref` — returns, at the Default
handle, exactly the statically linked symbol's result (the trampoline's
result for the macro-wrapped operations) with the state unchanged: no
lookup, no cell construction, no resolver-bound invocation. -/
theorem sentinel_path_is_direct_static_call (w : World) (st : OpenSSLState)
    (hd : st.handle = Handle.rtldDefault) (ssl buf num method ctx mode name : Int) :
    AMQP.OpenSSL.valid w st = (true, st) ∧
    AMQP.OpenSSL.TLS_client_method w st =
      (some (w.call (w.staticAddr "TLS_client_method") []), st) ∧
    AMQP.OpenSSL.SSL_CTX_new w method st =
      (some (w.call (w.staticAddr "SSL_CTX_new") [method]), st) ∧
    AMQP.OpenSSL.SSL_read w ssl buf num st =
      (some (w.call (w.staticAddr "SSL_read") [ssl, buf, num]), st) ∧
    AMQP.OpenSSL.SSL_set_tlsext_host_name_func w ssl name st =
      (some (AMQP.OpenSSL.SSL_set_tlsext_host_name_impl w ssl name), st) ∧
    AMQP.OpenSSL.SSL_CTX_set_mode_func w ctx mode st =
      (some (AMQP.OpenSSL.SSL_CTX_set_mode_impl w ctx mode), st) := by
  refine ⟨?_, ?_, ?_, ?_, ?_, ?_⟩ <;>
    simp [AMQP.OpenSSL.valid, AMQP.OpenSSL.TLS_client_method, AMQP.OpenSSL.SSL_CTX_new,
          AMQP.OpenSSL.SSL_read, AMQP.OpenSSL.SSL_set_tlsext_host_name_func,
          AMQP.OpenSSL.SSL_CTX_set_mode_func, hd]

/-- C1 witness: the amended theorem applied to the concrete world `W0` at
the initial state, where the handle is the sentinel. -/
theorem sentinel_path_is_direct_static_call_witness :
    initialState.handle = Handle.rtldDefault ∧
    (AMQP.OpenSSL.valid W0 initialState = (true, initialState) ∧
     AMQP.OpenSSL.TLS_client_method W0 initialState =
       (some (W0.call (W0.staticAddr "TLS_client_method") []), initialState) ∧
     AMQP.OpenSSL.SSL_CTX_new W0 4 initialState =
       (some (W0.call (W0.staticAddr "SSL_CTX_new") [4]), initialState) ∧
     AMQP.OpenSSL.SSL_read W0 1 2 3 initialState =
       (some (W0.call (W0.staticAddr "SSL_read") [1, 2, 3]), initialState) ∧
     AMQP.OpenSSL.SSL_set_tlsext_host_name_func W0 1 9 initialState =
       (some (AMQP.OpenSSL.SSL_set_tlsext_host_name_impl W0 1 9), initialState) ∧
     AMQP.OpenSSL.SSL_CTX_set_mode_func W0 5 6 initialState =
       (some (AMQP.OpenSSL.SSL_CTX_set_mode_impl W0 5 6), initialState)) :=
  ⟨rfl, sentinel_path_is_direct_static_call W0 initialState rfl 1 2 3 4 5 6 9⟩

/-- C6: the macro-wrapped operations.  At the Default sentinel the call
always goes through the local trampoline (`*_impl`, expanding the macro
form) and never touches the resolver (state unchanged); with an explicit
handle the real exported symbol name ("SSL_set_tlsext_host_name",
"SSL_CTX_set_mode") is resolved and its address invoked directly, the
result being that of the resolved symbol, not of the trampoline. -/
theorem trampoline_vs_exported_symbol (w : World) (st : OpenSSLState)
    (ssl name ctx mode : Int) :
    (st.handle = Handle.rtldDefault →
      AMQP.OpenSSL.SSL_set_tlsext_host_name_func w ssl name st =
        (some (AMQP.OpenSSL.SSL_set_tlsext_host_name_impl w ssl name), st) ∧
      AMQP.OpenSSL.SSL_CTX_set_mode_func w ctx mode st =
        (some (AMQP.OpenSSL.SSL_CTX_set_mode_impl w ctx mode), st)) ∧
    (∀ r, st.handle = Handle.explicit r →
      (st.hostNameFunc = none →
        (AMQP.OpenSSL.SSL_set_tlsext_host_name_func w ssl name st).2.lookups =
          (st.handle, "SSL_set_tlsext_host_name") :: st.lookups) ∧
      (∀ a, cellValue w st.handle "SSL_set_tlsext_host_name" st.hostNameFunc = some a →
        (AMQP.OpenSSL.SSL_set_tlsext_host_name_func w ssl name st).1 =
          some (w.call a [ssl, name])) ∧
      (st.setModeFunc = none →
        (AMQP.OpenSSL.SSL_CTX_set_mode_func w ctx mode st).2.lookups =
          (st.handle, "SSL_CTX_set_mode") :: st.lookups) ∧
      (∀ a, cellValue w st.handle "SSL_CTX_set_mode" st.setModeFunc = some a →
        (AMQP.OpenSSL.SSL_CTX_set_mode_func w ctx mode st).1 =
          some (w.call a [ctx, mode]))) := by
  constructor
  · intro hd
    simp [AMQP.OpenSSL.SSL_set_tlsext_host_name_func, AMQP.OpenSSL.SSL_CTX_set_mode_func, hd]
  · intro r hd
    refine ⟨?_, ?_, ?_, ?_⟩
    · intro hcell
      simp [AMQP.OpenSSL.SSL_set_tlsext_host_name_func, hd, resolveCell, hcell]
    · intro a ha
      cases hcell : st.hostNameFunc with
      | none =>
        simp [cellValue, hcell] at ha
        rw [hd] at ha
        simp [AMQP.OpenSSL.SSL_set_tlsext_host_name_func, hd, resolveCell, hcell, ha, invoke]
      | some rv =>
        simp [cellValue, hcell] at ha
        simp [AMQP.OpenSSL.SSL_set_tlsext_host_name_func, hd, resolveCell, hcell, ha, invoke]
    · intro hcell
      simp [AMQP.OpenSSL.SSL_CTX_set_mode_func, hd, resolveCell, hcell]
    · intro a ha
      cases hcell : st.setModeFunc with
      | none =>
        simp [cellValue, hcell] at ha
        rw [hd] at ha
        simp [AMQP.OpenSSL.SSL_CTX_set_mode_func, hd, resolveCell, hcell, ha, invoke]
      | some rv =>
        simp [cellValue, hcell] at ha
        simp [AMQP.OpenSSL.SSL_CTX_set_mode_func, hd, resolveCell, hcell, ha, invoke]

/-- C6 witness: at the initial (sentinel) state both macro-wrapped
operations go through their trampolines; after configuring library 1 both
exported symbols resolve (addresses 24 and 25) and are invoked directly. -/
theorem trampoline_vs_exported_symbol_witness :
    (initialState.handle = Handle.rtldDefault ∧
      AMQP.OpenSSL.SSL_set_tlsext_host_name_func W0 1 9 initialState =
        (some (AMQP.OpenSSL.SSL_set_tlsext_host_name_impl W0 1 9), initialState) ∧
      AMQP.OpenSSL.SSL_CTX_set_mode_func W0 5 6 initialState =
        (some (AMQP.OpenSSL.SSL_CTX_set_mode_impl W0 5 6), initialState)) ∧
    ((AMQP.openssl (Handle.explicit 1) initialState).handle = Handle.explicit 1 ∧
      (AMQP.OpenSSL.SSL_set_tlsext_host_name_func W0 1 9
        (AMQP.openssl (Handle.explicit 1) initialState)).1 = some (W0.call 24 [1, 9]) ∧
      (AMQP.OpenSSL.SSL_CTX_set_mode_func W0 5 6
        (AMQP.openssl (Handle.explicit 1) initialState)).1 = some (W0.call 25 [5, 6])) :=
  ⟨⟨rfl, (trampoline_vs_exported_symbol W0 initialState 1 9 5 6).1 rfl⟩,
   ⟨rfl,
    ((trampoline_vs_exported_symbol W0 (AMQP.openssl (Handle.explicit 1) initialState)
        1 9 5 6).2 1 rfl).2.1 24 (by decide),
    ((trampoline_vs_exported_symbol W0 (AMQP.openssl (Handle.explicit 1) initialState)
        1 9 5 6).2 1 rfl).2.2.2 25 (by decide)⟩⟩

/-- C3: with an explicit handle and fresh call sites, `TLS_client_method`
looks up "TLS_client_method" first; exactly when that lookup fails it also
looks up "SSLv23_client_method" (afterwards, as the log order shows) and
invokes whatever the fallback yielded; when the primary resolves, only the
primary is looked up and invoked.  A handle exporting only the legacy
symbol — whose function returns a non-null pointer — therefore yields a
non-null method pointer. -/
theorem tls_client_method_fallback (w : World) (st : OpenSSLState) (r : Nat)
    (hd : st.handle = Handle.explicit r) (h1 : st.tlsFunc = none) (h2 : st.tlsOld = none) :
    (∀ a, w.dlsym st.handle "TLS_client_method" = some a →
      (AMQP.OpenSSL.TLS_client_method w st).2.lookups =
        (st.handle, "TLS_client_method") :: st.lookups ∧
      (AMQP.OpenSSL.TLS_client_method w st).1 = some (w.call a [])) ∧
    (w.dlsym st.handle "TLS_client_method" = none →
      (AMQP.OpenSSL.TLS_client_method w st).2.lookups =
        (st.handle, "SSLv23_client_method") :: (st.handle, "TLS_client_method") :: st.lookups ∧
      (∀ a, w.dlsym st.handle "SSLv23_client_method" = some a →
        (AMQP.OpenSSL.TLS_client_method w st).1 = some (w.call a []) ∧
        (w.call a [] ≠ 0 → (AMQP.OpenSSL.TLS_client_method w st).1 ≠ some 0))) := by
  constructor
  · intro a ha
    rw [hd] at ha
    simp [AMQP.OpenSSL.TLS_client_method, hd, resolveCell, h1, h2, ha]
  · intro hnone
    rw [hd] at hnone
    refine ⟨?_, ?_⟩
    · simp [AMQP.OpenSSL.TLS_client_method, hd, resolveCell, h1, h2, hnone]
    · intro a ha
      rw [hd] at ha
      constructor
      · simp [AMQP.OpenSSL.TLS_client_method, hd, resolveCell, h1, h2, hnone, ha, invoke]
      · intro hnz
        simp [AMQP.OpenSSL.TLS_client_method, hd, resolveCell, h1, h2, hnone, ha, invoke, hnz]

/-- C3 witness: library 2 in `W0` exports only "SSLv23_client_method"
(address 30, whose call returns 30000 ≠ 0): after configuring it, the
wrapper looks up the modern name first, falls back to the legacy name,
and returns the legacy function's non-null result. -/
theorem tls_client_method_fallback_witness :
    ((AMQP.openssl (Handle.explicit 2) initialState).handle = Handle.explicit 2 ∧
     (AMQP.openssl (Handle.explicit 2) initialState).tlsFunc = none ∧
     (AMQP.openssl (Handle.explicit 2) initialState).tlsOld = none ∧
     W0.dlsym (AMQP.openssl (Handle.explicit 2) initialState).handle "TLS_client_method" = none ∧
     W0.dlsym (AMQP.openssl (Handle.explicit 2) initialState).handle "SSLv23_client_method" = some 30 ∧
     W0.call 30 [] ≠ 0) ∧
    ((AMQP.OpenSSL.TLS_client_method W0 (AMQP.openssl (Handle.explicit 2) initialState)).2.lookups =
      [((AMQP.openssl (Handle.explicit 2) initialState).handle, "SSLv23_client_method"),
       ((AMQP.openssl (Handle.explicit 2) initialState).handle, "TLS_client_method")] ∧
     (AMQP.OpenSSL.TLS_client_method W0 (AMQP.openssl (Handle.explicit 2) initialState)).1 =
       some (W0.call 30 []) ∧
     (AMQP.OpenSSL.TLS_client_method W0 (AMQP.openssl (Handle.explicit 2) initialState)).1 ≠
       some 0) :=
  ⟨⟨rfl, rfl, rfl, by decide, by decide, by decide⟩,
   ⟨((tls_client_method_fallback W0 (AMQP.openssl (Handle.explicit 2) initialState) 2
        rfl rfl rfl).2 (by decide)).1,
    (((tls_client_method_fallback W0 (AMQP.openssl (Handle.explicit 2) initialState) 2
        rfl rfl rfl).2 (by decide)).2 30 (by decide)).1,
    (((tls_client_method_fallback W0 (AMQP.openssl (Handle.explicit 2) initialState) 2
        rfl rfl rfl).2 (by decide)).2 30 (by decide)).2 (by decide)⟩⟩

/-- C2 counterexample: the address lookup is NOT performed only once per
(handle, name) pair for the lifetime of the process.  openssl.cpp resolves
"SSL_CTX_new" at two distinct call sites — line 52 inside `valid()` and
line 91 inside `SSL_CTX_new()` — so calling `valid()` and then
`SSL_CTX_new()` with explicit handle 1 performs the lookup of the pair
(explicit 1, "SSL_CTX_new") twice. -/
theorem ctx_new_lookup_performed_twice :
    ((runOps W0 [Op.setHandle (Handle.explicit 1), Op.callValid, Op.callSSLCTXNew 0]
        initialState).lookups.count (Handle.explicit 1, "SSL_CTX_new")) = 2 := by
  decide

/-- C2 (amended): memoization is per `static Function` call site, not per
(handle, name) pair.  At one call site (here `SSL_CTX_new`, line 91), the
first resolution on a fresh cell performs exactly one lookup and caches
the binding; a second resolution at the same call site performs no further
lookup, leaves the cell identical, and yields the identical cached
binding's result. -/
theorem ctx_new_memoized_per_call_site (w : World) (st : OpenSSLState) (r : Nat)
    (m1 m2 : Int) (hd : st.handle = Handle.explicit r) :
    (st.ctxNewFunc = none →
      (AMQP.OpenSSL.SSL_CTX_new w m1 st).2.lookups = (st.handle, "SSL_CTX_new") :: st.lookups) ∧
    (AMQP.OpenSSL.SSL_CTX_new w m1 st).2.ctxNewFunc =
      some (cellValue w st.handle "SSL_CTX_new" st.ctxNewFunc) ∧
    (AMQP.OpenSSL.SSL_CTX_new w m2 (AMQP.OpenSSL.SSL_CTX_new w m1 st).2).2.lookups =
      (AMQP.OpenSSL.SSL_CTX_new w m1 st).2.lookups ∧
    (AMQP.OpenSSL.SSL_CTX_new w m2 (AMQP.OpenSSL.SSL_CTX_new w m1 st).2).2.ctxNewFunc =
      (AMQP.OpenSSL.SSL_CTX_new w m1 st).2.ctxNewFunc ∧
    (AMQP.OpenSSL.SSL_CTX_new w m2 (AMQP.OpenSSL.SSL_CTX_new w m1 st).2).1 =
      invoke w (cellValue w st.handle "SSL_CTX_new" st.ctxNewFunc) [m2] := by
  cases hcell : st.ctxNewFunc with
  | none =>
    refine ⟨?_, ?_, ?_, ?_, ?_⟩ <;>
      simp [AMQP.OpenSSL.SSL_CTX_new, hd, resolveCell, cellValue, hcell]
  | some rv =>
    refine ⟨?_, ?_, ?_, ?_, ?_⟩ <;>
      simp [AMQP.OpenSSL.SSL_CTX_new, hd, resolveCell, cellValue, hcell]

/-- C2 witness: the amended theorem at `W0`, explicit handle 1, from the
just-configured initial state (fresh cell). -/
theorem ctx_new_memoized_per_call_site_witness :
    ((AMQP.openssl (Handle.explicit 1) initialState).handle = Handle.explicit 1) ∧
    (((AMQP.OpenSSL.SSL_CTX_new W0 3 (AMQP.openssl (Handle.explicit 1) initialState)).2.lookups =
        ((AMQP.openssl (Handle.explicit 1) initialState).handle, "SSL_CTX_new") ::
          (AMQP.openssl (Handle.explicit 1) initialState).lookups) ∧
    (AMQP.OpenSSL.SSL_CTX_new W0 3 (AMQP.openssl (Handle.explicit 1) initialState)).2.ctxNewFunc =
      some (cellValue W0 (AMQP.openssl (Handle.explicit 1) initialState).handle "SSL_CTX_new"
        (AMQP.openssl (Handle.explicit 1) initialState).ctxNewFunc) ∧
    (AMQP.OpenSSL.SSL_CTX_new W0 8
      (AMQP.OpenSSL.SSL_CTX_new W0 3 (AMQP.openssl (Handle.explicit 1) initialState)).2).2.lookups =
      (AMQP.OpenSSL.SSL_CTX_new W0 3 (AMQP.openssl (Handle.explicit 1) initialState)).2.lookups ∧
    (AMQP.OpenSSL.SSL_CTX_new W0 8
      (AMQP.OpenSSL.SSL_CTX_new W0 3 (AMQP.openssl (Handle.explicit 1) initialState)).2).2.ctxNewFunc =
      (AMQP.OpenSSL.SSL_CTX_new W0 3 (AMQP.openssl (Handle.explicit 1) initialState)).2.ctxNewFunc ∧
    (AMQP.OpenSSL.SSL_CTX_new W0 8
      (AMQP.OpenSSL.SSL_CTX_new W0 3 (AMQP.openssl (Handle.explicit 1) initialState)).2).1 =
      invoke W0 (cellValue W0 (AMQP.openssl (Handle.explicit 1) initialState).handle "SSL_CTX_new"
        (AMQP.openssl (Handle.explicit 1) initialState).ctxNewFunc) [8]) :=
  ⟨rfl,
   (ctx_new_memoized_per_call_site W0
      (AMQP.openssl (Handle.explicit 1) initialState) 1 3 8 rfl).1 rfl,
   (ctx_new_memoized_per_call_site W0
      (AMQP.openssl (Handle.explicit 1) initialState) 1 3 8 rfl).2⟩

/-- C5 counterexample: "subsequent invocations of the already-resolved
wrapper keep using the binding made against the old handle" fails when the
handle is later changed back to the `RTLD_DEFAULT` sentinel.  After
resolving `TLS_client_method` against explicit handle 1 (cached address
20), resetting the handle to the sentinel leaves the cache in place but
the next invocation takes the static path: it returns the static symbol's
result (7000), not the cached binding's result (20000). -/
theorem stale_binding_unused_after_reset_to_default :
    (runOps W0 [Op.setHandle (Handle.explicit 1), Op.callTLSClientMethod,
                Op.setHandle Handle.rtldDefault] initialState).tlsFunc = some (some 20) ∧
    (AMQP.OpenSSL.TLS_client_method W0
      (runOps W0 [Op.setHandle (Handle.explicit 1), Op.callTLSClientMethod,
                  Op.setHandle Handle.rtldDefault] initialState)).1 =
      some (W0.call (W0.staticAddr "TLS_client_method") []) ∧
    W0.call (W0.staticAddr "TLS_client_method") [] ≠ W0.call 20 [] := by
  refine ⟨by decide, by decide, by decide⟩

/-- C5 (amended): the configuration call `openssl(ptr)` never touches any
cached resolution — every memoization cell and the lookup log survive any
handle change unchanged — and as long as the new handle is still explicit
(non-Default), an already-successfully-resolved `TLS_client_method` keeps
using the binding made against the old handle: it returns the old cached
address's result and performs no new lookup.  (Only a reset to the Default
sentinel routes the guarded wrappers around their stale caches.) -/
theorem handle_change_keeps_cached_bindings (w : World) (st : OpenSSLState)
    (p : Handle) (a r : Nat) (hc : st.tlsFunc = some (some a))
    (hp : p = Handle.explicit r) :
    (AMQP.openssl p st).validFunc = st.validFunc ∧
    (AMQP.openssl p st).tlsFunc = st.tlsFunc ∧
    (AMQP.openssl p st).tlsOld = st.tlsOld ∧
    (AMQP.openssl p st).ctxNewFunc = st.ctxNewFunc ∧
    (AMQP.openssl p st).readFunc = st.readFunc ∧
    (AMQP.openssl p st).upRefFunc = st.upRefFunc ∧
    (AMQP.openssl p st).hostNameFunc = st.hostNameFunc ∧
    (AMQP.openssl p st).setModeFunc = st.setModeFunc ∧
    (AMQP.openssl p st).lookups = st.lookups ∧
    (AMQP.OpenSSL.TLS_client_method w (AMQP.openssl p st)).1 = some (w.call a []) ∧
    (AMQP.OpenSSL.TLS_client_method w (AMQP.openssl p st)).2.lookups = st.lookups := by
  refine ⟨rfl, rfl, rfl, rfl, rfl, rfl, rfl, rfl, rfl, ?_, ?_⟩ <;>
    simp [AMQP.OpenSSL.TLS_client_method, AMQP.openssl, hp, resolveCell, hc]

/-- C5 witness: resolve against library 1 (cached address 20), switch to
library 2; the next call still returns address 20's result and adds no
lookup. -/
theorem handle_change_keeps_cached_bindings_witness :
    ((runOps W0 [Op.setHandle (Handle.explicit 1), Op.callTLSClientMethod]
        initialState).tlsFunc = some (some 20) ∧
     (Handle.explicit 2 : Handle) = Handle.explicit 2) ∧
    ((AMQP.openssl (Handle.explicit 2)
        (runOps W0 [Op.setHandle (Handle.explicit 1), Op.callTLSClientMethod]
          initialState)).tlsFunc =
      (runOps W0 [Op.setHandle (Handle.explicit 1), Op.callTLSClientMethod]
          initialState).tlsFunc ∧
     (AMQP.OpenSSL.TLS_client_method W0 (AMQP.openssl (Handle.explicit 2)
        (runOps W0 [Op.setHandle (Handle.explicit 1), Op.callTLSClientMethod]
          initialState))).1 = some (W0.call 20 []) ∧
     (AMQP.OpenSSL.TLS_client_method W0 (AMQP.openssl (Handle.explicit 2)
        (runOps W0 [Op.setHandle (Handle.explicit 1), Op.callTLSClientMethod]
          initialState))).2.lookups =
      (runOps W0 [Op.setHandle (Handle.explicit 1), Op.callTLSClientMethod]
          initialState).lookups) :=
  ⟨⟨by decide, rfl⟩,
   (handle_change_keeps_cached_bindings W0
      (runOps W0 [Op.setHandle (Handle.explicit 1), Op.callTLSClientMethod] initialState)
      (Handle.explicit 2) 20 2 (by decide) rfl).2.1,
   (handle_change_keeps_cached_bindings W0
      (runOps W0 [Op.setHandle (Handle.explicit 1), Op.callTLSClientMethod] initialState)
      (Handle.explicit 2) 20 2 (by decide) rfl).2.2.2.2.2.2.2.2.2.1,
   (handle_change_keeps_cached_bindings W0
      (runOps W0 [Op.setHandle (Handle.explicit 1), Op.callTLSClientMethod] initialState)
      (Handle.explicit 2) 20 2 (by decide) rfl).2.2.2.2.2.2.2.2.2.2⟩

/-- Auxiliary: `symLookups` ignores log entries for other symbol names. -/
lemma symLookups_cons_ne (name s : String) (h : Handle) (log : List (Handle × String))
    (hne : s ≠ name) : symLookups name ((h, s) :: log) = symLookups name log := by
  simp [symLookups, List.filter_cons, hne]

/-- Auxiliary: one step preserves a successfully resolved primary binding of
`TLS_client_method` and never touches the fallback call site: the `tlsOld`
cell, the "SSLv23_client_method" lookup count and the `tlsOld` invocation
count are all unchanged. -/
lemma runOp_keeps_primary_success (w : World) (op : Op) (st : OpenSSLState) (a : Nat)
    (hc : st.tlsFunc = some (some a)) :
    (runOp w op st).tlsFunc = some (some a) ∧
    (runOp w op st).tlsOld = st.tlsOld ∧
    symLookups "SSLv23_client_method" (runOp w op st).lookups =
      symLookups "SSLv23_client_method" st.lookups ∧
    (runOp w op st).calls.count Site.tlsOld = st.calls.count Site.tlsOld := by
  cases op with
  | callValid =>
    by_cases hd : st.handle = Handle.rtldDefault
    · simp [runOp, AMQP.OpenSSL.valid, hd, hc]
    · cases hcell : st.validFunc <;>
        simp [runOp, AMQP.OpenSSL.valid, hd, hc, resolveCell, hcell,
              symLookups_cons_ne, List.count_cons]
  | callTLSClientMethod =>
    by_cases hd : st.handle = Handle.rtldDefault
    · simp [runOp, AMQP.OpenSSL.TLS_client_method, hd, hc]
    · simp [runOp, AMQP.OpenSSL.TLS_client_method, hd, hc, resolveCell, List.count_cons]
  | callSSLCTXNew m =>
    by_cases hd : st.handle = Handle.rtldDefault
    · simp [runOp, AMQP.OpenSSL.SSL_CTX_new, hd, hc]
    · cases hcell : st.ctxNewFunc <;>
        simp [runOp, AMQP.OpenSSL.SSL_CTX_new, hd, hc, resolveCell, hcell,
              symLookups_cons_ne, List.count_cons]
  | callSSLRead s b n =>
    by_cases hd : st.handle = Handle.rtldDefault
    · simp [runOp, AMQP.OpenSSL.SSL_read, hd, hc]
    · cases hcell : st.readFunc <;>
        simp [runOp, AMQP.OpenSSL.SSL_read, hd, hc, resolveCell, hcell,
              symLookups_cons_ne, List.count_cons]
  | callSSLUpRef s =>
    cases hcell : st.upRefFunc with
    | none =>
      cases hr : w.dlsym st.handle "SSL_up_ref" <;>
        simp [runOp, AMQP.OpenSSL.SSL_up_ref, hc, resolveCell, hcell, hr,
              symLookups_cons_ne, List.count_cons]
    | some rv =>
      cases rv <;>
        simp [runOp, AMQP.OpenSSL.SSL_up_ref, hc, resolveCell, hcell,
              symLookups_cons_ne, List.count_cons]
  | callHostName s n =>
    by_cases hd : st.handle = Handle.rtldDefault
    · simp [runOp, AMQP.OpenSSL.SSL_set_tlsext_host_name_func, hd, hc]
    · cases hcell : st.hostNameFunc <;>
        simp [runOp, AMQP.OpenSSL.SSL_set_tlsext_host_name_func, hd, hc, resolveCell, hcell,
              symLookups_cons_ne, List.count_cons]
  | callSetMode c m =>
    by_cases hd : st.handle = Handle.rtldDefault
    · simp [runOp, AMQP.OpenSSL.SSL_CTX_set_mode_func, hd, hc]
    · cases hcell : st.setModeFunc <;>
        simp [runOp, AMQP.OpenSSL.SSL_CTX_set_mode_func, hd, hc, resolveCell, hcell,
              symLookups_cons_ne, List.count_cons]
  | setHandle h =>
    simp [runOp, AMQP.openssl, hc]

/-- Auxiliary: the preservation extended to arbitrary operation sequences. -/
lemma runOps_keeps_primary_success (w : World) (ops : List Op) (st : OpenSSLState) (a : Nat)
    (hc : st.tlsFunc = some (some a)) :
    (runOps w ops st).tlsFunc = some (some a) ∧
    (runOps w ops st).tlsOld = st.tlsOld ∧
    symLookups "SSLv23_client_method" (runOps w ops st).lookups =
      symLookups "SSLv23_client_method" st.lookups ∧
    (runOps w ops st).calls.count Site.tlsOld = st.calls.count Site.tlsOld := by
  induction ops generalizing st with
  | nil => exact ⟨hc, rfl, rfl, rfl⟩
  | cons op rest ih =>
    have h1 := runOp_keeps_primary_success w op st a hc
    have h2 := ih (runOp w op st) h1.1
    exact ⟨h2.1, h2.2.1.trans h1.2.1, h2.2.2.1.trans h1.2.2.1, h2.2.2.2.trans h1.2.2.2⟩

/-- C7: once the primary candidate "TLS_client_method" has resolved
successfully (its call-site cell caches a valid binding), no later
operation whatsoever re-resolves or invokes the fallback: the fallback
cell, the "SSLv23_client_method" lookup count and the fallback invocation
count stay exactly as they were.  Moreover a single call with an explicit
handle invokes the fallback exactly when the primary candidate's binding
is invalid (falsy). -/
theorem primary_success_silences_fallback (w : World) (st : OpenSSLState) (a : Nat)
    (ops : List Op) (hc : st.tlsFunc = some (some a)) :
    ((runOps w ops st).tlsFunc = some (some a) ∧
     (runOps w ops st).tlsOld = st.tlsOld ∧
     symLookups "SSLv23_client_method" (runOps w ops st).lookups =
       symLookups "SSLv23_client_method" st.lookups ∧
     (runOps w ops st).calls.count Site.tlsOld = st.calls.count Site.tlsOld) ∧
    (∀ st' : OpenSSLState, ∀ r : Nat, st'.handle = Handle.explicit r →
      ((AMQP.OpenSSL.TLS_client_method w st').2.calls.count Site.tlsOld =
          st'.calls.count Site.tlsOld + 1 ↔
        cellValue w st'.handle "TLS_client_method" st'.tlsFunc = none)) := by
  refine ⟨runOps_keeps_primary_success w ops st a hc, ?_⟩
  intro st' r hd
  cases hcell : st'.tlsFunc with
  | none =>
    cases hr : w.dlsym st'.handle "TLS_client_method" with
    | none =>
      rw [hd] at hr
      simp [AMQP.OpenSSL.TLS_client_method, hd, resolveCell, hcell, hr,
            cellValue, List.count_cons]
    | some av =>
      rw [hd] at hr
      simp [AMQP.OpenSSL.TLS_client_method, hd, resolveCell, hcell, hr,
            cellValue, List.count_cons]
  | some rv =>
    cases rv with
    | none =>
      simp [AMQP.OpenSSL.TLS_client_method, hd, resolveCell, hcell,
            cellValue, List.count_cons]
    | some av =>
      simp [AMQP.OpenSSL.TLS_client_method, hd, resolveCell, hcell,
            cellValue, List.count_cons]

/-- C7 witness: after a first successful call against library 1 (primary
cached at address 20), a varied sequence of later operations — including a
handle switch to library 2 and further client-method calls — leaves the
fallback cell, the legacy-name lookup count and the fallback invocation
count untouched; and the single-call characterization instantiated at the
old library 2 (no "TLS_client_method") confirms the fallback fires there. -/
theorem primary_success_silences_fallback_witness :
    ((runOps W0 [Op.setHandle (Handle.explicit 1), Op.callTLSClientMethod]
        initialState).tlsFunc = some (some 20)) ∧
    (((runOps W0 [Op.callTLSClientMethod, Op.setHandle (Handle.explicit 2),
                  Op.callTLSClientMethod, Op.callValid, Op.callSSLUpRef 5]
        (runOps W0 [Op.setHandle (Handle.explicit 1), Op.callTLSClientMethod]
          initialState)).tlsFunc = some (some 20) ∧
      (runOps W0 [Op.callTLSClientMethod, Op.setHandle (Handle.explicit 2),
                  Op.callTLSClientMethod, Op.callValid, Op.callSSLUpRef 5]
        (runOps W0 [Op.setHandle (Handle.explicit 1), Op.callTLSClientMethod]
          initialState)).tlsOld =
        (runOps W0 [Op.setHandle (Handle.explicit 1), Op.callTLSClientMethod]
          initialState).tlsOld ∧
      symLookups "SSLv23_client_method"
        (runOps W0 [Op.callTLSClientMethod, Op.setHandle (Handle.explicit 2),
                    Op.callTLSClientMethod, Op.callValid, Op.callSSLUpRef 5]
          (runOps W0 [Op.setHandle (Handle.explicit 1), Op.callTLSClientMethod]
            initialState)).lookups =
        symLookups "SSLv23_client_method"
          (runOps W0 [Op.setHandle (Handle.explicit 1), Op.callTLSClientMethod]
            initialState).lookups ∧
      (runOps W0 [Op.callTLSClientMethod, Op.setHandle (Handle.explicit 2),
                  Op.callTLSClientMethod, Op.callValid, Op.callSSLUpRef 5]
        (runOps W0 [Op.setHandle (Handle.explicit 1), Op.callTLSClientMethod]
          initialState)).calls.count Site.tlsOld =
        (runOps W0 [Op.setHandle (Handle.explicit 1), Op.callTLSClientMethod]
          initialState).calls.count Site.tlsOld) ∧
     ((AMQP.OpenSSL.TLS_client_method W0
          (AMQP.openssl (Handle.explicit 2) initialState)).2.calls.count Site.tlsOld =
         (AMQP.openssl (Handle.explicit 2) initialState).calls.count Site.tlsOld + 1 ↔
       cellValue W0 (AMQP.openssl (Handle.explicit 2) initialState).handle
         "TLS_client_method" (AMQP.openssl (Handle.explicit 2) initialState).tlsFunc =
         none)) :=
  ⟨by decide,
   (primary_success_silences_fallback W0
     (runOps W0 [Op.setHandle (Handle.explicit 1), Op.callTLSClientMethod] initialState) 20
     [Op.callTLSClientMethod, Op.setHandle (Handle.explicit 2),
      Op.callTLSClientMethod, Op.callValid, Op.callSSLUpRef 5]
     (by decide)).1,
   (primary_success_silences_fallback W0
     (runOps W0 [Op.setHandle (Handle.explicit 1), Op.callTLSClientMethod] initialState) 20
     [Op.callTLSClientMethod, Op.setHandle (Handle.explicit 2),
      Op.callTLSClientMethod, Op.callValid, Op.callSSLUpRef 5]
     (by decide)).2 (AMQP.openssl (Handle.explicit 2) initialState) 2 rfl⟩

/-- Whether an operation is the configuration entry point `AMQP::openssl`. -/
def isSetHandle : Op → Bool
  | Op.setHandle _ => true
  | _ => false

/-- Auxiliary: a wrapper call (anything but the configuration entry point)
never changes the process-wide handle, and from a sentinel-handle state
every address lookup it performs targets the in-process sentinel. -/
lemma runOp_sentinel_invariant (w : World) (op : Op) (st : OpenSSLState)
    (hop : isSetHandle op = false) (hd : st.handle = Handle.rtldDefault)
    (hl : ∀ p ∈ st.lookups, p.1 = Handle.rtldDefault) :
    (runOp w op st).handle = Handle.rtldDefault ∧
    ∀ p ∈ (runOp w op st).lookups, p.1 = Handle.rtldDefault := by
  cases op with
  | callValid =>
    simp [runOp, AMQP.OpenSSL.valid, hd]
    exact fun a b hab => hl (a, b) hab
  | callTLSClientMethod =>
    simp [runOp, AMQP.OpenSSL.TLS_client_method, hd]
    exact fun a b hab => hl (a, b) hab
  | callSSLCTXNew m =>
    simp [runOp, AMQP.OpenSSL.SSL_CTX_new, hd]
    exact fun a b hab => hl (a, b) hab
  | callSSLRead s b n =>
    simp [runOp, AMQP.OpenSSL.SSL_read, hd]
    exact fun a b hab => hl (a, b) hab
  | callSSLUpRef s =>
    cases hcell : st.upRefFunc with
    | none =>
      refine ⟨by simp [runOp, AMQP.OpenSSL.SSL_up_ref, resolveCell, hcell]; cases hr : w.dlsym st.handle "SSL_up_ref" <;> simp [hd], ?_⟩
      intro p hp
      simp [runOp, AMQP.OpenSSL.SSL_up_ref, resolveCell, hcell] at hp
      cases hr : w.dlsym st.handle "SSL_up_ref" <;> rw [hr] at hp <;> simp at hp <;>
        rcases hp with hp | hp
      · exact hp.symm ▸ hd
      · exact hl p hp
      · exact hp.symm ▸ hd
      · exact hl p hp
    | some rv =>
      cases rv <;>
        (refine ⟨?_, ?_⟩
         · simp [runOp, AMQP.OpenSSL.SSL_up_ref, resolveCell, hcell, hd]
         · intro p hp
           simp [runOp, AMQP.OpenSSL.SSL_up_ref, resolveCell, hcell] at hp
           exact hl p hp)
  | callHostName s n =>
    simp [runOp, AMQP.OpenSSL.SSL_set_tlsext_host_name_func, hd]
    exact fun a b hab => hl (a, b) hab
  | callSetMode c m =>
    simp [runOp, AMQP.OpenSSL.SSL_CTX_set_mode_func, hd]
    exact fun a b hab => hl (a, b) hab
  | setHandle h => simp [isSetHandle] at hop

/-- Auxiliary: the sentinel invariant extended to sequences free of the
configuration call. -/
lemma runOps_sentinel_invariant (w : World) (ops : List Op) (st : OpenSSLState)
    (hops : ∀ op ∈ ops, isSetHandle op = false) (hd : st.handle = Handle.rtldDefault)
    (hl : ∀ p ∈ st.lookups, p.1 = Handle.rtldDefault) :
    (runOps w ops st).handle = Handle.rtldDefault ∧
    ∀ p ∈ (runOps w ops st).lookups, p.1 = Handle.rtldDefault := by
  induction ops generalizing st with
  | nil => exact ⟨hd, hl⟩
  | cons op rest ih =>
    have h1 := runOp_sentinel_invariant w op st (hops op (List.mem_cons_self op rest)) hd hl
    exact ih (runOp w op st) (fun o ho => hops o (List.mem_cons_of_mem op ho)) h1.1 h1.2

/-- C8: if the configuration entry point is never called, the process-wide
handle remains the `RTLD_DEFAULT` sentinel after any sequence of wrapper
calls, and every address lookup ever performed targeted the in-process
sentinel (the sentinel path); calling `openssl(ptr)` installs `ptr` as the
handle and does nothing else — every memoization cell and both logs are
left exactly as they were. -/
theorem openssl_config_and_default_behavior (w : World) (ptr : Handle)
    (st : OpenSSLState) (ops : List Op)
    (hops : ∀ op ∈ ops, isSetHandle op = false) :
    (runOps w ops initialState).handle = Handle.rtldDefault ∧
    (∀ p ∈ (runOps w ops initialState).lookups, p.1 = Handle.rtldDefault) ∧
    (AMQP.openssl ptr st).handle = ptr ∧
    (AMQP.openssl ptr st).validFunc = st.validFunc ∧
    (AMQP.openssl ptr st).tlsFunc = st.tlsFunc ∧
    (AMQP.openssl ptr st).tlsOld = st.tlsOld ∧
    (AMQP.openssl ptr st).ctxNewFunc = st.ctxNewFunc ∧
    (AMQP.openssl ptr st).readFunc = st.readFunc ∧
    (AMQP.openssl ptr st).upRefFunc = st.upRefFunc ∧
    (AMQP.openssl ptr st).hostNameFunc = st.hostNameFunc ∧
    (AMQP.openssl ptr st).setModeFunc = st.setModeFunc ∧
    (AMQP.openssl ptr st).lookups = st.lookups ∧
    (AMQP.openssl ptr st).calls = st.calls := by
  have h := runOps_sentinel_invariant w ops initialState hops rfl (by simp [initialState])
  exact ⟨h.1, h.2, rfl, rfl, rfl, rfl, rfl, rfl, rfl, rfl, rfl, rfl, rfl⟩

/-- C8 witness: a configuration-free sequence exercising several wrappers
keeps the sentinel installed, and `openssl` applied to library 1 at the
initial state only swaps the handle, leaving every cell and both logs
untouched. -/
theorem openssl_config_and_default_behavior_witness :
    (isSetHandle Op.callValid = false ∧
     isSetHandle (Op.callSSLUpRef 5) = false ∧
     isSetHandle (Op.callSSLRead 1 2 3) = false) ∧
    ((runOps W0 [Op.callValid, Op.callSSLUpRef 5, Op.callSSLRead 1 2 3]
        initialState).handle = Handle.rtldDefault ∧
     (AMQP.openssl (Handle.explicit 1) initialState).handle = Handle.explicit 1 ∧
     (AMQP.openssl (Handle.explicit 1) initialState).validFunc = initialState.validFunc ∧
     (AMQP.openssl (Handle.explicit 1) initialState).tlsFunc = initialState.tlsFunc ∧
     (AMQP.openssl (Handle.explicit 1) initialState).tlsOld = initialState.tlsOld ∧
     (AMQP.openssl (Handle.explicit 1) initialState).ctxNewFunc = initialState.ctxNewFunc ∧
     (AMQP.openssl (Handle.explicit 1) initialState).readFunc = initialState.readFunc ∧
     (AMQP.openssl (Handle.explicit 1) initialState).upRefFunc = initialState.upRefFunc ∧
     (AMQP.openssl (Handle.explicit 1) initialState).hostNameFunc = initialState.hostNameFunc ∧
     (AMQP.openssl (Handle.explicit 1) initialState).setModeFunc = initialState.setModeFunc ∧
     (AMQP.openssl (Handle.explicit 1) initialState).lookups = initialState.lookups ∧
     (AMQP.openssl (Handle.explicit 1) initialState).calls = initialState.calls) := by
  have H := openssl_config_and_default_behavior W0 (Handle.explicit 1) initialState
    [Op.callValid, Op.callSSLUpRef 5, Op.callSSLRead 1 2 3] (by decide)
  exact ⟨⟨rfl, rfl, rfl⟩, H.1, H.2.2.1, H.2.2.2.1, H.2.2.2.2.1, H.2.2.2.2.2.1,
         H.2.2.2.2.2.2.1, H.2.2.2.2.2.2.2.1, H.2.2.2.2.2.2.2.2.1,
         H.2.2.2.2.2.2.2.2.2.1, H.2.2.2.2.2.2.2.2.2.2.1,
         H.2.2.2.2.2.2.2.2.2.2.2.1, H.2.2.2.2.2.2.2.2.2.2.2.2⟩
